import Mathlib

/-!
Shallow embedding of the `qixotic/tendroids` C++ vertex-deformation engine
(`fast_mesh_updater.h` / `fast_mesh_updater.cpp`, plus the phase-2 binding
layer `python_bindings.cpp`).

Modelling conventions:
* C++ `float` scalars are modelled as exact rationals `ℚ`; `std::sin` is an
  external library routine, modelled as an explicit function parameter
  `sinq : ℚ → ℚ` so that every structural fact holds for the actual sine.
* Opaque Python/host objects (`py::object` stage references and USD attribute
  handles) are modelled as natural numbers; the Python `None` object is
  `Option.none`.
* Host interaction (attribute resolution, `Set` writes) is modelled by
  explicit outcome-valued parameters; a Python exception crossing the
  boundary is an `Except`-error, which the C++ `try/catch` blocks turn into
  a `false` return.
* Flat `float*` vertex buffers are `List ℚ` read with `List.getD` at the same
  indices the C++ computes; each written (x, y, z) triple is one `ℚ × ℚ × ℚ`
  entry of the output list, in write order.
-/

namespace Tendroids

/-- Performance statistics snapshot, `FastMeshUpdater::PerfStats`
(fast_mesh_updater.h lines 106-111). -/
structure PerfStats where
  total_calls : ℕ
  total_vertices : ℕ
  total_time_ms : ℚ
  avg_time_ms : ℚ
deriving Repr, DecidableEq

/-- The engine state: the private fields of `FastMeshUpdater`
(fast_mesh_updater.h lines 116-127).  `stage` is the held Python stage object
(`none` models the Python `None` it is initialised to), `mesh_points` the
`unordered_map<string, py::object>` cache of points attributes (kept as an
association list with unique keys; `unordered_map` order is irrelevant to the
claims about this map), and the three counters. -/
structure FastMeshUpdater where
  stage : Option ℕ := none
  stage_attached : Bool := false
  mesh_points : List (String × ℕ) := []
  total_calls : ℕ := 0
  total_vertices : ℕ := 0
  total_time_ms : ℚ := 0
deriving Repr, DecidableEq

/-- `FastMeshUpdater::attach_stage` (fast_mesh_updater.cpp lines 25-37):
a `None` stage returns `false` with no mutation; otherwise the reference is
stored, `stage_attached_` is set, and `true` is returned.  (The `catch (...)`
arm is unreachable for the modelled operations and has no state effect.) -/
def FastMeshUpdater.attach_stage (st : FastMeshUpdater) (stage : Option ℕ) :
    Bool × FastMeshUpdater :=
  if stage = none then
    (false, st)
  else
    (true, { st with stage := stage, stage_attached := true })

/-- `FastMeshUpdater::is_stage_attached` (fast_mesh_updater.cpp lines 39-41):
`stage_attached_ && !stage_.is_none()`. -/
def FastMeshUpdater.is_stage_attached (st : FastMeshUpdater) : Bool :=
  st.stage_attached && st.stage.isSome

/-- Outcome of resolving a mesh path against the host stage inside
`register_mesh`: a Python exception (`raises`), an invalid prim, an invalid
points attribute, or a valid points-attribute handle. -/
inductive ResolveOutcome where
  | raises
  | primInvalid
  | attrInvalid
  | ok (attr : ℕ)
deriving Repr, DecidableEq

/-- Insert-or-overwrite on the association list modelling
`mesh_points_[mesh_path] = points_attr` on `std::unordered_map`. -/
def insertOrReplace (m : List (String × ℕ)) (k : String) (v : ℕ) :
    List (String × ℕ) :=
  if (m.lookup k).isSome then
    m.map (fun p => if p.1 = k then (k, v) else p)
  else
    m ++ [(k, v)]

/-- `FastMeshUpdater::register_mesh` (fast_mesh_updater.cpp lines 43-80):
fails without mutation when unattached, when the prim is invalid, when the
points attribute is invalid, or when the host raises; on success caches the
resolved attribute under the path (insert-or-overwrite) and returns `true`.
The host-side resolution (`GetPrimAtPath` / `GetPointsAttr` and their
validity checks) is the `resolve` parameter. -/
def FastMeshUpdater.register_mesh (st : FastMeshUpdater) (mesh_path : String)
    (resolve : String → ResolveOutcome) : Bool × FastMeshUpdater :=
  if st.stage_attached = false ∨ st.stage = none then
    (false, st)
  else
    match resolve mesh_path with
    | .raises => (false, st)
    | .primInvalid => (false, st)
    | .attrInvalid => (false, st)
    | .ok attr =>
        (true, { st with mesh_points := insertOrReplace st.mesh_points mesh_path attr })

/-- `FastMeshUpdater::get_mesh_count` (fast_mesh_updater.cpp lines 82-84):
`mesh_points_.size()`. -/
def FastMeshUpdater.get_mesh_count (st : FastMeshUpdater) : ℕ :=
  st.mesh_points.length

/-- A fault thrown by the host/Python side (`py::error_already_set` or any
other C++ exception). -/
inductive HostErr where
  | pyError
  | otherError
deriving Repr, DecidableEq

/-- `FastMeshUpdater::update_mesh_vertices` (fast_mesh_updater.cpp lines
86-146).  Inputs: the numpy buffer's dimensionality `ndim` and second-axis
extent `shape1` (the data itself does not influence the control flow), and
the host's `Set` behaviour per attribute handle (`hostSet`).  Output:
`Except HostErr (Bool × List ℕ)` — the error side models a fault escaping
the function (the C++ catches every exception, so the model always produces
`Except.ok`), the `Bool` is the returned success flag, and the `List ℕ` the
attribute handles on which a host `Set` write was attempted, in order. -/
def FastMeshUpdater.update_mesh_vertices (st : FastMeshUpdater)
    (mesh_path : String) (ndim shape1 : ℕ)
    (hostSet : ℕ → Except HostErr Unit) :
    Except HostErr (Bool × List ℕ) :=
  match st.mesh_points.lookup mesh_path with
  | none => .ok (false, [])
  | some points_attr =>
      if ndim ≠ 2 ∨ shape1 ≠ 3 then
        .ok (false, [])
      else
        match hostSet points_attr with
        | .error _ => .ok (false, [points_attr])
        | .ok _ => .ok (true, [points_attr])

/-- The per-vertex breathing-wave transform shared by both compute loops
(fast_mesh_updater.cpp lines 162-176 and 206-221):
`scale = 1 + amplitude * sin(y * frequency + time * wave_speed)`,
output `(x * scale, y, z * scale)`. -/
def deformVertex (sinq : ℚ → ℚ) (time wave_speed amplitude frequency : ℚ)
    (x y z : ℚ) : ℚ × ℚ × ℚ :=
  let wave_phase := y * frequency + time * wave_speed
  let scale := 1 + amplitude * sinq wave_phase
  (x * scale, y, z * scale)

/-- Result of one kernel call: the output buffer (one `(x,y,z)` triple per
vertex, in write order), the returned vertex count, and the engine state
with updated performance counters. -/
structure KernelResult where
  output : List (ℚ × ℚ × ℚ)
  retval : ℕ
  state : FastMeshUpdater
deriving Repr, DecidableEq

/-- `FastMeshUpdater::compute_tube_vertices` (fast_mesh_updater.cpp lines
150-186): for each vertex `i < vertex_count` reads
`base[3i], base[3i+1], base[3i+2]`, writes the deformed triple, then adds
1 call, `vertex_count` vertices and the measured wall-clock `duration`
(an opaque nonnegative input here) to the counters, returning
`vertex_count`. -/
def FastMeshUpdater.compute_tube_vertices (st : FastMeshUpdater)
    (sinq : ℚ → ℚ) (base_vertices : List ℚ) (vertex_count : ℕ)
    (time wave_speed amplitude frequency : ℚ) (duration : ℚ) : KernelResult :=
  { output := (List.range vertex_count).map (fun i =>
      deformVertex sinq time wave_speed amplitude frequency
        (base_vertices.getD (3 * i) 0)
        (base_vertices.getD (3 * i + 1) 0)
        (base_vertices.getD (3 * i + 2) 0))
    retval := vertex_count
    state := { st with
      total_calls := st.total_calls + 1
      total_vertices := st.total_vertices + vertex_count
      total_time_ms := st.total_time_ms + duration } }

/-- `FastMeshUpdater::batch_compute_vertices` (fast_mesh_updater.cpp lines
188-232): a doubly nested loop over tubes and vertices-per-tube; for tube
`tube_idx` and vertex `v` the flat element offset is
`tube_idx * verts_per_tube * 3 + v * 3`; counters get 1 call and
`num_tubes * verts_per_tube` vertices; returns `num_tubes * verts_per_tube`. -/
def FastMeshUpdater.batch_compute_vertices (st : FastMeshUpdater)
    (sinq : ℚ → ℚ) (base_vertices : List ℚ) (num_tubes verts_per_tube : ℕ)
    (time wave_speed amplitude frequency : ℚ) (duration : ℚ) : KernelResult :=
  { output := (List.range num_tubes).flatMap (fun tube_idx =>
      (List.range verts_per_tube).map (fun v =>
        let idx := tube_idx * verts_per_tube * 3 + v * 3
        deformVertex sinq time wave_speed amplitude frequency
          (base_vertices.getD idx 0)
          (base_vertices.getD (idx + 1) 0)
          (base_vertices.getD (idx + 2) 0)))
    retval := num_tubes * verts_per_tube
    state := { st with
      total_calls := st.total_calls + 1
      total_vertices := st.total_vertices + num_tubes * verts_per_tube
      total_time_ms := st.total_time_ms + duration } }

/-- `FastMeshUpdater::get_stats` (fast_mesh_updater.cpp lines 234-241):
snapshot of the counters with
`avg_time_ms = total_calls > 0 ? total_time_ms / total_calls : 0`. -/
def FastMeshUpdater.get_stats (st : FastMeshUpdater) : PerfStats :=
  { total_calls := st.total_calls
    total_vertices := st.total_vertices
    total_time_ms := st.total_time_ms
    avg_time_ms := if st.total_calls > 0 then st.total_time_ms / st.total_calls else 0 }

/-- `FastMeshUpdater::reset_stats` (fast_mesh_updater.cpp lines 243-247). -/
def FastMeshUpdater.reset_stats (st : FastMeshUpdater) : FastMeshUpdater :=
  { st with total_calls := 0, total_vertices := 0, total_time_ms := 0 }

/-- The fault thrown by the phase-2 binding lambdas
(`std::runtime_error("Vertices must be Nx3 array")`,
python_bindings.cpp lines 58 and 79). -/
inductive BindErr where
  | shapeError
deriving Repr, DecidableEq

/-- The `update_mesh_vertices` binding lambda (python_bindings.cpp lines
50-69): validates that the numpy buffer is an N×3 array, throwing
`BindErr.shapeError` otherwise, and only then forwards the row count to the
engine method `self.update_mesh_vertices(mesh_path, ptr, vertex_count)`
(that phase-2 engine method's body is not in the repository sources, so it
is the abstract parameter `engine`). -/
def update_mesh_vertices_binding (ndim shape1 nrows : ℕ)
    (engine : ℕ → Bool) : Except BindErr Bool :=
  if ndim ≠ 2 ∨ shape1 ≠ 3 then
    .error .shapeError
  else
    .ok (engine nrows)

/-- The `batch_update_vertices` binding lambda (python_bindings.cpp lines
71-90): same N×3 validation, then forwards the total row count and
`vertices_per_mesh` to the engine method. -/
def batch_update_vertices_binding (ndim shape1 nrows vertices_per_mesh : ℕ)
    (engine : ℕ → ℕ → ℕ) : Except BindErr ℕ :=
  if ndim ≠ 2 ∨ shape1 ≠ 3 then
    .error .shapeError
  else
    .ok (engine nrows vertices_per_mesh)

/-- Modelled from the spec: the phase-2 engine method
`batch_update_vertices(ptr, total_vertices, vertices_per_mesh)` is declared
and called by python_bindings.cpp (lines 71-90) but its implementation is
not among the repository sources.  Per spec §4.2, it iterates the registered
meshes in registration order; for mesh index `i` it takes the slice
`[i*vertices_per_mesh, (i+1)*vertices_per_mesh)` of the shared buffer and
writes it to that mesh's handle; it stops, keeping prior writes, as soon as
the next slice would exceed the buffer length `total_vertices`; a failing
per-mesh host write does not abort the loop (the policy the spec mandates);
it returns the count of meshes actually updated.  `writeOk` is the host's
acceptance of the write for a given mesh path; the second component lists
the successful writes performed, as `(mesh_path, slice_start, slice_stop)`
in execution order. -/
def batch_update_go (writeOk : String → Bool) (vertices_per_mesh total_vertices : ℕ) :
    List String → ℕ → ℕ × List (String × ℕ × ℕ)
  | [], _ => (0, [])
  | p :: rest, i =>
      if (i + 1) * vertices_per_mesh > total_vertices then
        (0, [])
      else
        let r := batch_update_go writeOk vertices_per_mesh total_vertices rest (i + 1)
        if writeOk p then
          (r.1 + 1, (p, i * vertices_per_mesh, (i + 1) * vertices_per_mesh) :: r.2)
        else
          (r.1, r.2)

/-- Modelled from the spec: entry point of the phase-2 batch update over the
registry `registered` (mesh paths in registration order); see
`batch_update_go`. -/
def batch_update_vertices (registered : List String)
    (total_vertices vertices_per_mesh : ℕ) (writeOk : String → Bool) :
    ℕ × List (String × ℕ × ℕ) :=
  batch_update_go writeOk vertices_per_mesh total_vertices registered 0

/-! ### Helper lemmas -/

/-- Reading position `i < n` of a map over `List.range n`. -/
lemma getD_map_range {α : Type} (g : ℕ → α) {n i : ℕ} (h : i < n) (d : α) :
    ((List.range n).map g).getD i d = g i := by
  simp [List.getD_eq_getElem?_getD, List.getElem?_map, List.getElem?_range h]

/-- Splitting a map over `List.range (n * m)` into `n` consecutive blocks of
`m` elements. -/
lemma map_range_mul_blocks {α : Type} (g : ℕ → α) (m : ℕ) :
    ∀ n : ℕ, (List.range (n * m)).map g =
      (List.range n).flatMap (fun t => (List.range m).map (fun v => g (t * m + v))) := by
  intro n
  induction n with
  | zero => simp
  | succ n ih =>
      have hsplit : List.range ((n + 1) * m) =
          List.range (n * m) ++ (List.range m).map (n * m + ·) := by
        rw [Nat.succ_mul, List.range_add]
      rw [hsplit, List.map_append, ih, List.range_succ, List.flatMap_append]
      simp [List.map_map, Function.comp]

/-- Looking up `k` after the overwrite branch of `insertOrReplace`. -/
lemma lookup_map_overwrite (k : String) (v : ℕ) :
    ∀ m : List (String × ℕ), (m.lookup k).isSome →
      (m.map (fun p => if p.1 = k then (k, v) else p)).lookup k = some v := by
  intro m
  induction m with
  | nil => simp
  | cons a tl ih =>
      obtain ⟨a1, a2⟩ := a
      intro hsome
      rw [List.map_cons]
      by_cases h : a1 = k
      · have hf : (if ((a1, a2) : String × ℕ).1 = k then (k, v) else (a1, a2)) = (k, v) :=
          if_pos h
        rw [hf]
        simp [List.lookup]
      · have hf : (if ((a1, a2) : String × ℕ).1 = k then (k, v) else (a1, a2)) = (a1, a2) :=
          if_neg h
        rw [hf]
        have hne : (k == a1) = false := by
          simp only [beq_eq_false_iff_ne, ne_eq]
          exact fun he => h he.symm
        have htl : (tl.lookup k).isSome := by
          simpa [List.lookup, hne] using hsome
        simpa [List.lookup, hne] using ih htl

/-- Looking up `k` after the append branch of `insertOrReplace`. -/
lemma lookup_append_new (k : String) (v : ℕ) :
    ∀ m : List (String × ℕ), m.lookup k = none →
      (m ++ [(k, v)]).lookup k = some v := by
  intro m
  induction m with
  | nil => simp [List.lookup]
  | cons a tl ih =>
      obtain ⟨a1, a2⟩ := a
      intro hnone
      have hne : (k == a1) = false := by
        cases hk : (k == a1) with
        | true => simp [List.lookup, hk] at hnone
        | false => rfl
      have htl : tl.lookup k = none := by
        simpa [List.lookup, hne] using hnone
      simpa [List.lookup, hne] using ih htl

/-- `insertOrReplace` always stores the new value under the key. -/
lemma lookup_insertOrReplace (m : List (String × ℕ)) (k : String) (v : ℕ) :
    (insertOrReplace m k v).lookup k = some v := by
  unfold insertOrReplace
  by_cases h : (m.lookup k).isSome
  · simpa [h] using lookup_map_overwrite k v m h
  · have hnone : m.lookup k = none := by
      cases hm : m.lookup k with
      | none => rfl
      | some x => simp [hm] at h
    simpa [h] using lookup_append_new k v m hnone

/-- Length of `insertOrReplace` when the key is absent. -/
lemma length_insertOrReplace_new (m : List (String × ℕ)) (k : String) (v : ℕ)
    (h : m.lookup k = none) :
    (insertOrReplace m k v).length = m.length + 1 := by
  unfold insertOrReplace
  simp [h]

/-- Length of `insertOrReplace` when the key is present. -/
lemma length_insertOrReplace_existing (m : List (String × ℕ)) (k : String) (v : ℕ)
    (h : (m.lookup k).isSome) :
    (insertOrReplace m k v).length = m.length := by
  unfold insertOrReplace
  simp [h]

/-! ### Claim theorems -/

/-- C1.  `compute_tube_vertices` transforms each vertex `i` independently to
`(x * scale, y, z * scale)` with
`scale = 1 + amplitude * sin(y * frequency + time * wave_speed)` — in
particular the y component of every output vertex equals the y component of
the corresponding input vertex — and for the single base vertex `(1, 2, 3)`
with `time = 0`, `wave_speed = 2`, `amplitude = 1/2`, `frequency = 1`, any
sine implementation within `1/10000` of `sin 2 ≈ 0.9093` yields an output
within `1/1000` of `(1.4546, 2, 4.3639)`. -/
theorem compute_tube_vertices_formula (sinq : ℚ → ℚ) (st : FastMeshUpdater)
    (base : List ℚ) (n : ℕ) (time wave_speed amplitude frequency duration : ℚ) :
    (∀ i, i < n →
      (st.compute_tube_vertices sinq base n time wave_speed amplitude frequency
          duration).output.getD i (0, 0, 0) =
        (base.getD (3 * i) 0 *
            (1 + amplitude * sinq (base.getD (3 * i + 1) 0 * frequency + time * wave_speed)),
         base.getD (3 * i + 1) 0,
         base.getD (3 * i + 2) 0 *
            (1 + amplitude * sinq (base.getD (3 * i + 1) 0 * frequency + time * wave_speed))))
    ∧ (|sinq 2 - 9093 / 10000| ≤ 1 / 10000 →
        ∃ o1 o3,
          (st.compute_tube_vertices sinq [1, 2, 3] 1 0 2 (1 / 2) 1 duration).output
            = [(o1, 2, o3)] ∧
          |o1 - 14546 / 10000| ≤ 1 / 1000 ∧ |o3 - 43639 / 10000| ≤ 1 / 1000) := by
  constructor
  · intro i hi
    rw [FastMeshUpdater.compute_tube_vertices]
    rw [getD_map_range _ hi]
    rfl
  · intro hs
    refine ⟨1 * (1 + 1 / 2 * sinq (2 * 1 + 0 * 2)), 3 * (1 + 1 / 2 * sinq (2 * 1 + 0 * 2)), ?_, ?_, ?_⟩
    · simp [FastMeshUpdater.compute_tube_vertices, deformVertex, List.range_succ]
    · have h2 : (2 * 1 + 0 * 2 : ℚ) = 2 := by norm_num
      rw [h2]
      rw [abs_le] at hs ⊢
      constructor <;> nlinarith [hs.1, hs.2]
    · have h2 : (2 * 1 + 0 * 2 : ℚ) = 2 := by norm_num
      rw [h2]
      rw [abs_le] at hs ⊢
      constructor <;> nlinarith [hs.1, hs.2]

/-- Witness for C1 at the concrete scenario: a sine implementation returning
exactly `9093/10000` on the base vertex `(1,2,3)` with the claimed
parameters. -/
theorem compute_tube_vertices_formula_witness :
    (({} : FastMeshUpdater).compute_tube_vertices (fun _ => 9093 / 10000)
        [1, 2, 3] 1 0 2 (1 / 2) 1 0).output.getD 0 (0, 0, 0) =
      (29093 / 20000, 2, 87279 / 20000) := by
  have h := (compute_tube_vertices_formula (fun _ => 9093 / 10000) {}
      [1, 2, 3] 1 0 2 (1 / 2) 1 0).1 0 (by norm_num)
  rw [h]
  norm_num

/-- C2.  `batch_compute_vertices` over `num_tubes` tubes of `verts_per_tube`
vertices produces exactly the same output buffer as one
`compute_tube_vertices` call over the whole buffer, and returns
`num_tubes * verts_per_tube`, the number of vertices processed. -/
theorem batch_compute_vertices_eq_compute_tube (sinq : ℚ → ℚ)
    (st : FastMeshUpdater) (base : List ℚ) (num_tubes verts_per_tube : ℕ)
    (time wave_speed amplitude frequency duration : ℚ) :
    (st.batch_compute_vertices sinq base num_tubes verts_per_tube
        time wave_speed amplitude frequency duration).output =
      (st.compute_tube_vertices sinq base (num_tubes * verts_per_tube)
        time wave_speed amplitude frequency duration).output ∧
    (st.batch_compute_vertices sinq base num_tubes verts_per_tube
        time wave_speed amplitude frequency duration).retval =
      num_tubes * verts_per_tube := by
  refine ⟨?_, rfl⟩
  rw [FastMeshUpdater.batch_compute_vertices, FastMeshUpdater.compute_tube_vertices]
  rw [map_range_mul_blocks _ verts_per_tube num_tubes]
  apply List.flatMap_congr
  intro t ht
  apply List.map_congr_left
  intro v hv
  have h0 : t * verts_per_tube * 3 + v * 3 = 3 * (t * verts_per_tube + v) := by ring
  have h1 : t * verts_per_tube * 3 + v * 3 + 1 = 3 * (t * verts_per_tube + v) + 1 := by ring
  have h2 : t * verts_per_tube * 3 + v * 3 + 2 = 3 * (t * verts_per_tube + v) + 2 := by ring
  simp only [h0, h1, h2]

/-- Generalized unrolling of `batch_update_go` for a buffer holding exactly
`K` slices, starting at mesh index `i`, when the host accepts every write. -/
lemma batch_update_go_spec (writeOk : String → Bool) (vpm K : ℕ) (hvpm : 0 < vpm) :
    ∀ (paths : List String) (i : ℕ), i ≤ K → K ≤ i + paths.length →
      (∀ p ∈ paths, writeOk p = true) →
      batch_update_go writeOk vpm (K * vpm) paths i =
        (K - i, List.zipWith (fun p j => (p, j * vpm, (j + 1) * vpm))
          (paths.take (K - i)) (List.range' i (K - i))) := by
  intro paths
  induction paths with
  | nil =>
      intro i h1 h2 _
      have h2' : K ≤ i := by simpa using h2
      have hKi : K - i = 0 := by omega
      simp [batch_update_go, hKi]
  | cons p rest ih =>
      intro i h1 h2 hw
      by_cases hiK : i < K
      · have hcond : ¬ ((i + 1) * vpm > K * vpm) := by
          exact not_lt.mpr (Nat.mul_le_mul_right vpm hiK)
        have hwp : writeOk p = true := hw p (List.mem_cons_self p rest)
        have hrec := ih (i + 1) hiK (by simpa [Nat.add_comm, Nat.add_left_comm] using h2)
          (fun q hq => hw q (List.mem_cons_of_mem _ hq))
        have hKi : K - i = (K - (i + 1)) + 1 := by omega
        rw [batch_update_go, if_neg hcond]
        simp only [hrec, hwp, if_true, hKi, List.take_succ_cons, List.range'_succ,
          List.zipWith_cons_cons]
      · have hiK' : i = K := by omega
        subst hiK'
        have hcond : (i + 1) * vpm > i * vpm := (Nat.mul_lt_mul_right hvpm).mpr (Nat.lt_succ_self i)
        rw [batch_update_go, if_pos hcond]
        simp

/-- C3.  With `N` registered meshes and a shared buffer sized for exactly
`K < N` meshes (`K * vertices_per_mesh` vertices), and the host accepting
every write, the spec-modelled `batch_update_vertices` returns `K`, and the
writes performed are exactly the slices
`[i * vertices_per_mesh, (i+1) * vertices_per_mesh)` for the first `K`
meshes in registration order (so it stops once the next slice would exceed
the buffer, and earlier writes are kept, not rolled back). -/
theorem batch_update_vertices_partial_buffer (registered : List String)
    (K vpm : ℕ) (writeOk : String → Bool) (hvpm : 0 < vpm)
    (hK : K < registered.length) (hw : ∀ p ∈ registered, writeOk p = true) :
    batch_update_vertices registered (K * vpm) vpm writeOk =
      (K, List.zipWith (fun p j => (p, j * vpm, (j + 1) * vpm))
        (registered.take K) (List.range K)) := by
  have h := batch_update_go_spec writeOk vpm K hvpm registered 0 (Nat.zero_le K)
    (by omega) hw
  rw [batch_update_vertices, h]
  rw [List.range_eq_range']
  simp

/-- Witness for C3: three registered meshes, a buffer sized for exactly two
meshes of two vertices each; the call returns 2 and writes the two leading
slices. -/
theorem batch_update_vertices_partial_buffer_witness :
    batch_update_vertices ["a", "b", "c"] 4 2 (fun _ => true) =
      (2, [("a", 0, 2), ("b", 2, 4)]) := by
  have h := batch_update_vertices_partial_buffer ["a", "b", "c"] 2 2 (fun _ => true)
    (by decide) (by decide) (by intro p _; rfl)
  simpa using h

/-- C4.  The engine's `update_mesh_vertices` never lets a fault propagate
(its result is always `Except.ok`), and it reports an unknown identifier, a
wrong vertex-buffer shape, and a failed host write all through the same
boolean failure result `false`. -/
theorem update_mesh_vertices_boolean_failure (st : FastMeshUpdater)
    (mesh_path : String) (ndim shape1 : ℕ) (hostSet : ℕ → Except HostErr Unit) :
    (∃ r, st.update_mesh_vertices mesh_path ndim shape1 hostSet = .ok r)
    ∧ (st.mesh_points.lookup mesh_path = none →
        st.update_mesh_vertices mesh_path ndim shape1 hostSet = .ok (false, []))
    ∧ ((ndim ≠ 2 ∨ shape1 ≠ 3) →
        st.update_mesh_vertices mesh_path ndim shape1 hostSet = .ok (false, []))
    ∧ (∀ attr e, st.mesh_points.lookup mesh_path = some attr →
        ndim = 2 → shape1 = 3 → hostSet attr = .error e →
        st.update_mesh_vertices mesh_path ndim shape1 hostSet = .ok (false, [attr])) := by
  refine ⟨?_, ?_, ?_, ?_⟩
  · unfold FastMeshUpdater.update_mesh_vertices
    split
    · exact ⟨_, rfl⟩
    · split
      · exact ⟨_, rfl⟩
      · split
        · exact ⟨_, rfl⟩
        · exact ⟨_, rfl⟩
  · intro h
    unfold FastMeshUpdater.update_mesh_vertices
    rw [h]
  · intro hsh
    cases hlook : st.mesh_points.lookup mesh_path with
    | none => simp [FastMeshUpdater.update_mesh_vertices, hlook]
    | some attr =>
        rcases hsh with h | h <;>
          simp [FastMeshUpdater.update_mesh_vertices, hlook, h]
  · intro attr e hlook hnd hsh hset
    subst hnd
    subst hsh
    simp [FastMeshUpdater.update_mesh_vertices, hlook, hset]

/-- Witness for C4: a registered mesh whose host write raises; the engine
returns `Except.ok (false, [1])` rather than letting the fault escape. -/
theorem update_mesh_vertices_boolean_failure_witness :
    ({ mesh_points := [("m", 1)] } : FastMeshUpdater).update_mesh_vertices "m" 2 3
        (fun _ => .error .pyError) = .ok (false, [1]) := by
  exact (update_mesh_vertices_boolean_failure { mesh_points := [("m", 1)] } "m" 2 3
    (fun _ => .error .pyError)).2.2.2 1 .pyError (by decide) rfl rfl rfl

/-- Counterexample for C5 as stated: in the engine's `update_mesh_vertices`
a wrong-shape buffer (here a 1-dimensional array, on the registered mesh
`"m"`) produces exactly the same observable outcome, `Except.ok (false, [])`,
as an unknown-identifier failure with a well-shaped buffer — so the shape
mismatch is not reported as a validation failure distinct from other failure
causes. -/
theorem shape_mismatch_not_distinct_counterexample :
    ({ mesh_points := [("m", 7)] } : FastMeshUpdater).update_mesh_vertices "m" 1 3
        (fun _ => .ok ()) =
      ({ mesh_points := [("m", 7)] } : FastMeshUpdater).update_mesh_vertices "missing" 2 3
        (fun _ => .ok ()) ∧
    ({ mesh_points := [("m", 7)] } : FastMeshUpdater).update_mesh_vertices "m" 1 3
        (fun _ => .ok ()) = .ok (false, []) := by
  constructor
  · rfl
  · rfl

/-- C5 amended.  Every vertex-bearing operation given a non-N×3 buffer fails
before any host write runs and never silently truncates: the engine's
`update_mesh_vertices` returns the shared boolean failure `false` with no
write attempted (the same channel as its other failure causes), while the
phase-2 binding lambdas report the mismatch as a distinct thrown validation
fault before invoking any engine computation. -/
theorem shape_mismatch_validation_amended (st : FastMeshUpdater)
    (mesh_path : String) (ndim shape1 nrows vpm : ℕ)
    (hostSet : ℕ → Except HostErr Unit) (engine : ℕ → Bool)
    (engineB : ℕ → ℕ → ℕ) (hbad : ndim ≠ 2 ∨ shape1 ≠ 3) :
    st.update_mesh_vertices mesh_path ndim shape1 hostSet = .ok (false, []) ∧
    update_mesh_vertices_binding ndim shape1 nrows engine = .error .shapeError ∧
    batch_update_vertices_binding ndim shape1 nrows vpm engineB = .error .shapeError := by
  refine ⟨?_, ?_, ?_⟩
  · cases hlook : st.mesh_points.lookup mesh_path with
    | none => simp [FastMeshUpdater.update_mesh_vertices, hlook]
    | some attr =>
        rcases hbad with h | h <;>
          simp [FastMeshUpdater.update_mesh_vertices, hlook, h]
  · unfold update_mesh_vertices_binding
    rw [if_pos hbad]
  · unfold batch_update_vertices_binding
    rw [if_pos hbad]

/-- Witness for the amended C5: a 1-dimensional buffer rejected by the
engine (boolean `false`, no write) and by both binding lambdas (thrown
shape fault). -/
theorem shape_mismatch_validation_amended_witness :
    ({ mesh_points := [("m", 7)] } : FastMeshUpdater).update_mesh_vertices "m" 1 3
        (fun _ => .ok ()) = .ok (false, []) ∧
    update_mesh_vertices_binding 1 3 5 (fun _ => true) = .error .shapeError ∧
    batch_update_vertices_binding 1 3 5 2 (fun _ _ => 0) = .error .shapeError := by
  exact shape_mismatch_validation_amended { mesh_points := [("m", 7)] } "m" 1 3 5 2
    (fun _ => .ok ()) (fun _ => true) (fun _ _ => 0) (by decide)

/-- Counterexample for C6 as stated: after a successful attach, a subsequent
`attach_stage` call with the Python `None` reference returns `false` but
leaves the engine attached — `is_stage_attached` is still `true`, where the
claim requires the engine to be unattached afterwards. -/
theorem attach_none_counterexample :
    ((({} : FastMeshUpdater).attach_stage (some 5)).2.attach_stage none).1 = false ∧
    ((({} : FastMeshUpdater).attach_stage (some 5)).2.attach_stage none).2.is_stage_attached
      = true := by
  constructor
  · rfl
  · rfl

/-- C6 amended.  `attach_stage` with a null/absent reference returns failure
and leaves the whole state unchanged — so the engine stays unattached only
if it was unattached before, and a previously attached stage remains
attached; a non-null reference is stored, sets the attached flag, and
returns success; re-attaching replaces the stored reference without
requiring prior detachment. -/
theorem attach_stage_amended (st : FastMeshUpdater) (r r' : ℕ) :
    st.attach_stage none = (false, st) ∧
    st.attach_stage (some r) =
      (true, { st with stage := some r, stage_attached := true }) ∧
    (st.attach_stage (some r)).2.is_stage_attached = true ∧
    ((st.attach_stage (some r)).2.attach_stage (some r')).2.stage = some r' := by
  refine ⟨rfl, ?_, ?_, ?_⟩
  · simp [FastMeshUpdater.attach_stage]
  · simp [FastMeshUpdater.attach_stage, FastMeshUpdater.is_stage_attached]
  · simp [FastMeshUpdater.attach_stage]

/-- Every failing `register_mesh` call leaves the engine state exactly as it
was. -/
lemma register_mesh_fail_eq (st : FastMeshUpdater) (mesh_path : String)
    (resolve : String → ResolveOutcome)
    (h : (st.register_mesh mesh_path resolve).1 = false) :
    (st.register_mesh mesh_path resolve).2 = st := by
  by_cases hguard : st.stage_attached = false ∨ st.stage = none
  · unfold FastMeshUpdater.register_mesh
    rw [if_pos hguard]
  · unfold FastMeshUpdater.register_mesh at h ⊢
    rw [if_neg hguard] at h ⊢
    cases hres : resolve mesh_path with
    | raises => rfl
    | primInvalid => rfl
    | attrInvalid => rfl
    | ok attr => rw [hres] at h; simp at h

/-- C7.  `register_mesh` while no stage is attached returns failure and
leaves `get_mesh_count` unchanged; more generally every failing call (also
invalid prim, invalid attribute, or a host raise) leaves the engine state —
in particular the registration map — exactly as it was. -/
theorem register_mesh_failure_no_mutation (st : FastMeshUpdater)
    (mesh_path : String) (resolve : String → ResolveOutcome) :
    (st.is_stage_attached = false →
      (st.register_mesh mesh_path resolve).1 = false ∧
      (st.register_mesh mesh_path resolve).2.get_mesh_count = st.get_mesh_count) ∧
    ((st.register_mesh mesh_path resolve).1 = false →
      (st.register_mesh mesh_path resolve).2 = st) := by
  constructor
  · intro h
    have hguard : st.stage_attached = false ∨ st.stage = none := by
      cases hb : st.stage_attached with
      | false => exact Or.inl rfl
      | true =>
          right
          cases hs : st.stage with
          | none => rfl
          | some r =>
              exfalso
              rw [FastMeshUpdater.is_stage_attached, hb, hs] at h
              simp at h
    have h1 : (st.register_mesh mesh_path resolve).1 = false := by
      unfold FastMeshUpdater.register_mesh
      rw [if_pos hguard]
    refine ⟨h1, ?_⟩
    rw [register_mesh_fail_eq st mesh_path resolve h1]
  · exact register_mesh_fail_eq st mesh_path resolve

/-- Witness for C7: a freshly constructed (unattached) engine refuses a
registration, with the state left untouched, even when the host would
resolve the path. -/
theorem register_mesh_failure_no_mutation_witness :
    (({} : FastMeshUpdater).register_mesh "m" (fun _ => .ok 1)).1 = false ∧
    (({} : FastMeshUpdater).register_mesh "m" (fun _ => .ok 1)).2.get_mesh_count
      = ({} : FastMeshUpdater).get_mesh_count :=
  (register_mesh_failure_no_mutation {} "m" (fun _ => .ok 1)).1 rfl

/-- C8.  When `register_mesh(id)` succeeds, `get_mesh_count` increases by
exactly 1 if `id` was not previously registered and stays the same if it
was, and in either case the stored handle for `id` is the newly resolved
one. -/
theorem register_mesh_success_mesh_count (st : FastMeshUpdater)
    (mesh_path : String) (resolve : String → ResolveOutcome) (attr : ℕ)
    (hatt : st.stage_attached = true) (hstage : st.stage ≠ none)
    (hres : resolve mesh_path = .ok attr) :
    (st.register_mesh mesh_path resolve).1 = true ∧
    (st.mesh_points.lookup mesh_path = none →
      (st.register_mesh mesh_path resolve).2.get_mesh_count = st.get_mesh_count + 1) ∧
    ((st.mesh_points.lookup mesh_path).isSome →
      (st.register_mesh mesh_path resolve).2.get_mesh_count = st.get_mesh_count) ∧
    (st.register_mesh mesh_path resolve).2.mesh_points.lookup mesh_path = some attr := by
  have hguard : ¬ (st.stage_attached = false ∨ st.stage = none) := by
    simp [hatt, hstage]
  unfold FastMeshUpdater.register_mesh
  rw [if_neg hguard, hres]
  refine ⟨rfl, ?_, ?_, ?_⟩
  · intro h
    simp [FastMeshUpdater.get_mesh_count, length_insertOrReplace_new _ _ _ h]
  · intro h
    simp [FastMeshUpdater.get_mesh_count, length_insertOrReplace_existing _ _ _ h]
  · exact lookup_insertOrReplace st.mesh_points mesh_path attr

/-- Witness for C8: an attached engine with an empty registry registers
mesh `"m"` (resolved to handle 42): the call succeeds, the count goes from
0 to 1, and the stored handle is 42. -/
theorem register_mesh_success_mesh_count_witness :
    (({ stage := some 1, stage_attached := true } : FastMeshUpdater).register_mesh "m"
        (fun _ => .ok 42)).1 = true ∧
    (({ stage := some 1, stage_attached := true } : FastMeshUpdater).register_mesh "m"
        (fun _ => .ok 42)).2.get_mesh_count = 1 ∧
    (({ stage := some 1, stage_attached := true } : FastMeshUpdater).register_mesh "m"
        (fun _ => .ok 42)).2.mesh_points.lookup "m" = some 42 := by
  have h := register_mesh_success_mesh_count
    { stage := some 1, stage_attached := true } "m" (fun _ => .ok 42) 42 rfl
    (by simp) rfl
  exact ⟨h.1, by simpa using h.2.1 rfl, h.2.2.2⟩

/-- C9.  Each kernel call adds exactly 1 to `total_calls`, its vertex count
to `total_vertices` and its measured duration to `total_time_ms`; the
counters are monotonically non-decreasing across calls; `reset_stats` zeroes
all three; `get_stats` reports `total_time_ms / total_calls` as the average
when `total_calls > 0` and 0 when it is 0; and three calls processing 10,
20 and 30 vertices after a reset leave `total_calls = 3` and
`total_vertices = 60`. -/
theorem performance_counters_accounting (st : FastMeshUpdater) (sinq : ℚ → ℚ)
    (base : List ℚ) (n num_tubes verts_per_tube : ℕ)
    (time wave_speed amplitude frequency duration d1 d2 d3 : ℚ)
    (hd : 0 ≤ duration) :
    ((st.compute_tube_vertices sinq base n time wave_speed amplitude frequency
        duration).state.total_calls = st.total_calls + 1 ∧
     (st.compute_tube_vertices sinq base n time wave_speed amplitude frequency
        duration).state.total_vertices = st.total_vertices + n ∧
     (st.compute_tube_vertices sinq base n time wave_speed amplitude frequency
        duration).state.total_time_ms = st.total_time_ms + duration) ∧
    ((st.batch_compute_vertices sinq base num_tubes verts_per_tube time wave_speed
        amplitude frequency duration).state.total_calls = st.total_calls + 1 ∧
     (st.batch_compute_vertices sinq base num_tubes verts_per_tube time wave_speed
        amplitude frequency duration).state.total_vertices
        = st.total_vertices + num_tubes * verts_per_tube) ∧
    (st.total_calls ≤ (st.compute_tube_vertices sinq base n time wave_speed amplitude
        frequency duration).state.total_calls ∧
     st.total_vertices ≤ (st.compute_tube_vertices sinq base n time wave_speed amplitude
        frequency duration).state.total_vertices ∧
     st.total_time_ms ≤ (st.compute_tube_vertices sinq base n time wave_speed amplitude
        frequency duration).state.total_time_ms) ∧
    (st.reset_stats.total_calls = 0 ∧ st.reset_stats.total_vertices = 0 ∧
     st.reset_stats.total_time_ms = 0) ∧
    ((0 < st.total_calls →
        st.get_stats.avg_time_ms = st.total_time_ms / st.total_calls) ∧
     (st.total_calls = 0 → st.get_stats.avg_time_ms = 0)) ∧
    ((((st.reset_stats.compute_tube_vertices sinq base 10 time wave_speed amplitude
          frequency d1).state.compute_tube_vertices sinq base 20 time wave_speed
          amplitude frequency d2).state.compute_tube_vertices sinq base 30 time
          wave_speed amplitude frequency d3).state.total_calls = 3 ∧
     (((st.reset_stats.compute_tube_vertices sinq base 10 time wave_speed amplitude
          frequency d1).state.compute_tube_vertices sinq base 20 time wave_speed
          amplitude frequency d2).state.compute_tube_vertices sinq base 30 time
          wave_speed amplitude frequency d3).state.total_vertices = 60) := by
  refine ⟨⟨rfl, rfl, rfl⟩, ⟨rfl, rfl⟩, ⟨?_, ?_, ?_⟩, ⟨rfl, rfl, rfl⟩, ⟨?_, ?_⟩, ?_, ?_⟩
  · simp [FastMeshUpdater.compute_tube_vertices]
  · simp [FastMeshUpdater.compute_tube_vertices]
  · simp [FastMeshUpdater.compute_tube_vertices]
    linarith
  · intro h
    simp [FastMeshUpdater.get_stats, h]
  · intro h
    simp [FastMeshUpdater.get_stats, h]
  · simp [FastMeshUpdater.compute_tube_vertices, FastMeshUpdater.reset_stats]
  · simp [FastMeshUpdater.compute_tube_vertices, FastMeshUpdater.reset_stats]

/-- Witness for C9 at concrete inputs: zero durations, an empty base buffer,
and the 10/20/30-vertex call sequence from a reset engine. -/
theorem performance_counters_accounting_witness :
    ((((({} : FastMeshUpdater).reset_stats.compute_tube_vertices (fun _ => 0) [] 10
        0 0 0 0 0).state.compute_tube_vertices (fun _ => 0) [] 20 0 0 0 0
        0).state.compute_tube_vertices (fun _ => 0) [] 30 0 0 0 0
        0).state.total_calls = 3 ∧
     (((({} : FastMeshUpdater).reset_stats.compute_tube_vertices (fun _ => 0) [] 10
        0 0 0 0 0).state.compute_tube_vertices (fun _ => 0) [] 20 0 0 0 0
        0).state.compute_tube_vertices (fun _ => 0) [] 30 0 0 0 0
        0).state.total_vertices = 60) :=
  (performance_counters_accounting {} (fun _ => 0) [] 0 0 0 0 0 0 0 0 0 0 0
    (le_refl 0)).2.2.2.2.2

/-- C10.  A failing re-registration of an already registered identifier
(invalid prim, invalid attribute, host raise, or even a lost attachment)
never evicts the live entry: the cached handle and `get_mesh_count` are
unchanged. -/
theorem register_mesh_failed_rereg_keeps_entry (st : FastMeshUpdater)
    (mesh_path : String) (resolve : String → ResolveOutcome) (attr : ℕ)
    (hreg : st.mesh_points.lookup mesh_path = some attr)
    (hfail : (st.register_mesh mesh_path resolve).1 = false) :
    (st.register_mesh mesh_path resolve).2.mesh_points.lookup mesh_path = some attr ∧
    (st.register_mesh mesh_path resolve).2.get_mesh_count = st.get_mesh_count := by
  have hst : (st.register_mesh mesh_path resolve).2 = st := by
    by_cases hguard : st.stage_attached = false ∨ st.stage = none
    · unfold FastMeshUpdater.register_mesh
      rw [if_pos hguard]
    · unfold FastMeshUpdater.register_mesh at hfail ⊢
      rw [if_neg hguard] at hfail ⊢
      cases hres : resolve mesh_path with
      | raises => rfl
      | primInvalid => rfl
      | attrInvalid => rfl
      | ok a => rw [hres] at hfail; simp at hfail
  rw [hst]
  exact ⟨hreg, rfl⟩

/-- Witness for C10: mesh `"m"` is registered with handle 9; a
re-registration during which the host raises fails and leaves the handle
and the count intact. -/
theorem register_mesh_failed_rereg_keeps_entry_witness :
    (({ stage := some 1, stage_attached := true, mesh_points := [("m", 9)] } :
        FastMeshUpdater).register_mesh "m" (fun _ => .raises)).2.mesh_points.lookup "m"
      = some 9 ∧
    (({ stage := some 1, stage_attached := true, mesh_points := [("m", 9)] } :
        FastMeshUpdater).register_mesh "m" (fun _ => .raises)).2.get_mesh_count
      = ({ stage := some 1, stage_attached := true, mesh_points := [("m", 9)] } :
        FastMeshUpdater).get_mesh_count :=
  register_mesh_failed_rereg_keeps_entry
    { stage := some 1, stage_attached := true, mesh_points := [("m", 9)] } "m"
    (fun _ => .raises) 9 (by decide) (by decide)

end Tendroids
